import Mathlib

/-!
Verification of the WixRemoveRegistryKeyEx custom action
(src/src/ext/ca/wixca/dll/RemoveRegistryKeyEx.cpp).

The action scans the WixRemoveRegistryKeyEx rule table and, for each rule
that survives its condition, stages one row in either the RemoveRegistry
table (mode 1, remove on install) or the Registry table (mode 2, remove
on uninstall).  The embedding below mirrors the loop body statement by
statement: a failed typed column fetch is modelled as a `none` field, the
engine's condition evaluator and the staging-table append are oracles
supplied by the environment.
-/

namespace RemoveRegistryKeyEx

/-- Tri-state outcome of MsiEvaluateConditionW on a non-empty condition
string: MSICONDITION_TRUE, MSICONDITION_FALSE, or MSICONDITION_ERROR
(the spec's True / False / Invalid). -/
inductive CondResult
  | ctrue
  | cfalse
  | cinvalid
deriving DecidableEq

/-- One record fetched from the WixRemoveRegistryKeyEx table.  Each field
is the result of the corresponding typed column accessor on the record:
`none` models a failed fetch (the accessor returned a failure HRESULT,
which trips ExitOnFailure), `some v` a successful fetch.  A NULL string
column fetched successfully yields `some ""`. -/
structure RawRow where
  id : Option String
  component : Option String
  root : Option Int
  key : Option String
  mode : Option Int
  condition : Option String
deriving DecidableEq

/-- The five ordered values of a row appended to the RemoveRegistry
staging table: WcaAddTempRecord(.., L"RemoveRegistry", .., 5,
sczId, iRoot, sczKey, L"-", sczComponent). -/
structure RemoveRegistryRow where
  id : String
  root : Int
  key : String
  name : String
  component : String
deriving DecidableEq

/-- The six ordered values of a row appended to the Registry staging
table: WcaAddTempRecord(.., L"Registry", .., 6, sczId, iRoot, sczKey,
L"-", NULL, sczComponent).  The NULL value slot is `none`. -/
structure RegistryRow where
  id : String
  root : Int
  key : String
  name : String
  value : Option String
  component : String
deriving DecidableEq

/-- A staging-table append performed by the translator, tagged by the
destination table. -/
inductive StagedRow
  | removeRegistry : RemoveRegistryRow → StagedRow
  | registry : RegistryRow → StagedRow
deriving DecidableEq

/-- The WcaLog messages the action can emit. -/
inductive LogEvent
  | tableMissing
  | conditionTrue (id cond : String)
  | conditionFalseOrInvalid (id cond : String)
  | addingRemoveRegistry (id : String) (root : Int) (key component : String)
  | addingRegistry (id : String) (root : Int) (key component : String)
deriving DecidableEq

/-- The installer session the custom action runs against: whether the
rule table exists, the records its cursor yields in order, the engine's
condition evaluator, and whether a given staging append succeeds. -/
structure Env where
  tableExists : Bool
  rows : List RawRow
  evalCondition : String → CondResult
  appendOk : StagedRow → Bool

/-- Outcome of one iteration of the fetch loop for one record:
a fatal column-fetch error, a row-level skip, or an attempted append. -/
inductive RowOutcome
  | fatal
  | skip
  | emit (s : StagedRow)
deriving DecidableEq

/-- One loop iteration's outcome together with the log messages it
emitted, in order. -/
structure RowStep where
  outcome : RowOutcome
  logs : List LogEvent
deriving DecidableEq

/-- Second half of the loop body, reached only when the condition check
let the record through: fetch Component, Root, Key and InstallMode (each
fatal on failure), then switch on the mode — case 1 stages a
RemoveRegistry row, case 2 a Registry row, any other value falls out of
the switch with no append and no log.  `condLogs` carries the log
message the condition check already emitted. -/
def translateRow (r : RawRow) (id : String) (condLogs : List LogEvent) : RowStep :=
  match r.component with
  | none => ⟨.fatal, condLogs⟩
  | some component =>
  match r.root with
  | none => ⟨.fatal, condLogs⟩
  | some root =>
  match r.key with
  | none => ⟨.fatal, condLogs⟩
  | some key =>
  match r.mode with
  | none => ⟨.fatal, condLogs⟩
  | some mode =>
  if mode = 1 then
    ⟨.emit (.removeRegistry ⟨id, root, key, "-", component⟩),
      condLogs ++ [.addingRemoveRegistry id root key component]⟩
  else if mode = 2 then
    ⟨.emit (.registry ⟨id, root, key, "-", none, component⟩),
      condLogs ++ [.addingRegistry id root key component]⟩
  else
    ⟨.skip, condLogs⟩

/-- The full loop body for one fetched record, mirroring the source:
fetch Id (fatal on failure), fetch Condition (fatal on failure); a
non-empty condition is evaluated and anything other than TRUE skips the
record with a log message; otherwise control falls through to
`translateRow`. -/
def processRow (env : Env) (r : RawRow) : RowStep :=
  match r.id with
  | none => ⟨.fatal, []⟩
  | some id =>
  match r.condition with
  | none => ⟨.fatal, []⟩
  | some cond =>
  if cond = "" then
    translateRow r id []
  else if env.evalCondition cond = CondResult.ctrue then
    translateRow r id [.conditionTrue id cond]
  else
    ⟨.skip, [.conditionFalseOrInvalid id cond]⟩

/-- Overall result of the pass: the success status (mapped by
WcaFinalize to ERROR_SUCCESS or ERROR_INSTALL_FAILURE), the rows staged
via WcaAddTempRecord in order, and the WcaLog messages in order. -/
structure PassResult where
  success : Bool
  staged : List StagedRow
  logs : List LogEvent
deriving DecidableEq

/-- The while loop over the fetched records.  A fatal fetch error aborts
the pass with failure; an emitted row is appended if the staging append
succeeds, and a failed append aborts the pass; rows staged before an
abort stay staged; exhausting the cursor (E_NOMOREITEMS) is success. -/
def runRows (env : Env) : List RawRow → PassResult
  | [] => ⟨true, [], []⟩
  | r :: rest =>
    let step := processRow env r
    match step.outcome with
    | .fatal => ⟨false, [], step.logs⟩
    | .skip =>
      let t := runRows env rest
      ⟨t.success, t.staged, step.logs ++ t.logs⟩
    | .emit s =>
      if env.appendOk s then
        let t := runRows env rest
        ⟨t.success, s :: t.staged, step.logs ++ t.logs⟩
      else
        ⟨false, [], step.logs⟩

/-- WixRemoveRegistryKeyEx: if the rule table does not exist the pass is
a logged no-op that succeeds; otherwise it opens the view and runs the
fetch loop. -/
def wixRemoveRegistryKeyEx (env : Env) : PassResult :=
  if env.tableExists then runRows env env.rows
  else ⟨true, [], [.tableMissing]⟩

/-- If a run over a list of records succeeds, a run over that list
followed by more records processes the suffix from where the first run
stopped, accumulating staged rows and logs in order. -/
theorem runRows_append_of_success (env : Env) (xs ys : List RawRow)
    (h : (runRows env xs).success = true) :
    runRows env (xs ++ ys) =
      ⟨(runRows env ys).success,
       (runRows env xs).staged ++ (runRows env ys).staged,
       (runRows env xs).logs ++ (runRows env ys).logs⟩ := by
  induction xs with
  | nil => simp [runRows]
  | cons r rest ih =>
    cases hout : (processRow env r).outcome with
    | fatal =>
      simp [runRows, hout] at h
    | skip =>
      simp only [runRows, hout, List.cons_append, List.append_eq] at h ⊢
      rw [ih h]
      simp
    | emit s =>
      by_cases happ : env.appendOk s = true
      · simp only [runRows, hout, happ, if_true, List.cons_append, List.append_eq] at h ⊢
        rw [ih h]
        simp
      · simp [runRows, hout, happ] at h

/-- If a run over a list of records aborts, appending further records
changes nothing: they are never processed. -/
theorem runRows_append_of_abort (env : Env) (xs ys : List RawRow)
    (h : (runRows env xs).success = false) :
    runRows env (xs ++ ys) = runRows env xs := by
  induction xs with
  | nil => simp [runRows] at h
  | cons r rest ih =>
    cases hout : (processRow env r).outcome with
    | fatal =>
      simp [runRows, hout]
    | skip =>
      simp only [runRows, hout, List.cons_append, List.append_eq] at h ⊢
      rw [ih h]
    | emit s =>
      by_cases happ : env.appendOk s = true
      · simp only [runRows, hout, happ, if_true, List.cons_append, List.append_eq] at h ⊢
        rw [ih h]
      · simp [runRows, hout, happ]

/-- If a translated record is missing one of the Component, Root, Key or
InstallMode columns, the loop body's outcome is fatal, whatever log
messages the condition check emitted. -/
theorem translateRow_fatal (r : RawRow) (id : String) (condLogs : List LogEvent)
    (hcol : r.component = none ∨ r.root = none ∨ r.key = none ∨ r.mode = none) :
    (translateRow r id condLogs).outcome = RowOutcome.fatal := by
  cases hcomp : r.component with
  | none => simp [translateRow, hcomp]
  | some comp =>
    cases hroot : r.root with
    | none => simp [translateRow, hcomp, hroot]
    | some root =>
      cases hkey : r.key with
      | none => simp [translateRow, hcomp, hroot, hkey]
      | some key =>
        cases hmode : r.mode with
        | none => simp [translateRow, hcomp, hroot, hkey, hmode]
        | some mode => simp_all

/-- A record the translator turns into an emitted staging row has its
Component, Root, Key and InstallMode columns all fetched. -/
theorem translateRow_emit_fetched (r : RawRow) (id : String) (ls : List LogEvent)
    (s : StagedRow) (h : (translateRow r id ls).outcome = RowOutcome.emit s) :
    r.component ≠ none ∧ r.root ≠ none ∧ r.key ≠ none ∧ r.mode ≠ none := by
  cases hcomp : r.component with
  | none => simp [translateRow, hcomp] at h
  | some comp =>
    cases hroot : r.root with
    | none => simp [translateRow, hcomp, hroot] at h
    | some root =>
      cases hkey : r.key with
      | none => simp [translateRow, hcomp, hroot, hkey] at h
      | some key =>
        cases hmode : r.mode with
        | none => simp [translateRow, hcomp, hroot, hkey, hmode] at h
        | some mode => simp [hcomp, hroot, hkey, hmode]

/-- An environment whose evaluator accepts every condition and whose
staging appends always succeed. -/
def envAllTrue (rows : List RawRow) : Env :=
  ⟨true, rows, fun _ => CondResult.ctrue, fun _ => true⟩

/-- An environment whose evaluator rejects every condition as False and
whose staging appends always succeed. -/
def envAllFalse (rows : List RawRow) : Env :=
  ⟨true, rows, fun _ => CondResult.cfalse, fun _ => true⟩

/-- An environment whose evaluator accepts every condition but whose
staging appends always fail. -/
def envNoAppend (rows : List RawRow) : Env :=
  ⟨true, rows, fun _ => CondResult.ctrue, fun _ => false⟩

/-- Claim C1, counterexample: a fetched record whose Key column fetch
fails is skipped by a False condition before the Key fetch is reached,
so the pass does not abort: it succeeds and still stages a row for the
subsequent record, contradicting the claim that a missing Key column on
any fetched row is fatal for the whole pass. -/
theorem c1_counterexample :
    (RawRow.mk (some "A") (some "CompA") (some 2) none (some 1) (some "COND")).key
      = none ∧
    wixRemoveRegistryKeyEx
        ⟨true,
         [⟨some "A", some "CompA", some 2, none, some 1, some "COND"⟩,
          ⟨some "B", some "CompB", some 2, some "SOFTWARE", some 1, some ""⟩],
         fun _ => CondResult.cfalse, fun _ => true⟩
      = ⟨true,
         [StagedRow.removeRegistry ⟨"B", 2, "SOFTWARE", "-", "CompB"⟩],
         [LogEvent.conditionFalseOrInvalid "A" "COND",
          LogEvent.addingRemoveRegistry "B" 2 "SOFTWARE" "CompB"]⟩ :=
  ⟨rfl, rfl⟩

/-- Claim C1, amended: absence of the Id column on a fetched record is
always fatal; absence of the Component, Root, Key or InstallMode column
is fatal for every record whose condition lets it through (empty, or
evaluating True).  In either case the pass aborts with failure and no
row is staged for that record or for any later record. -/
theorem c1_fatal_column_fetch (env : Env) (pre rest : List RawRow) (r : RawRow)
    (hpre : (runRows env pre).success = true)
    (hbad : r.id = none ∨
      (∃ c, r.condition = some c ∧
        (c = "" ∨ env.evalCondition c = CondResult.ctrue) ∧
        (r.component = none ∨ r.root = none ∨ r.key = none ∨ r.mode = none))) :
    (runRows env (pre ++ r :: rest)).success = false ∧
    (runRows env (pre ++ r :: rest)).staged = (runRows env pre).staged := by
  have hfatal : (processRow env r).outcome = RowOutcome.fatal := by
    cases hid : r.id with
    | none => simp [processRow, hid]
    | some id =>
      rcases hbad with hidn | ⟨c, hc, happl, hcol⟩
      · rw [hid] at hidn; exact absurd hidn (by simp)
      · rcases happl with hce | hct
        · subst hce
          simp only [processRow, hid, hc, if_pos rfl]
          exact translateRow_fatal r id [] hcol
        · by_cases hce : c = ""
          · subst hce
            simp only [processRow, hid, hc, if_pos rfl]
            exact translateRow_fatal r id [] hcol
          · simp only [processRow, hid, hc, if_neg hce, if_pos hct]
            exact translateRow_fatal r id [LogEvent.conditionTrue id c] hcol
  rw [runRows_append_of_success env pre (r :: rest) hpre]
  simp [runRows, hfatal]

/-- Claim C1, witness of the amended theorem at a concrete input: a
record with a failed Component fetch and an empty condition aborts an
otherwise empty pass. -/
theorem c1_fatal_column_fetch_witness :
    ((runRows (envAllTrue []) []).success = true) ∧
    ((runRows (envAllTrue [])
        ([] ++ ⟨some "A", none, some 0, some "K", some 1, some ""⟩ :: [])).success
          = false ∧
     (runRows (envAllTrue [])
        ([] ++ ⟨some "A", none, some 0, some "K", some 1, some ""⟩ :: [])).staged
          = (runRows (envAllTrue []) []).staged) :=
  ⟨rfl,
   c1_fatal_column_fetch (envAllTrue []) [] []
     ⟨some "A", none, some 0, some "K", some 1, some ""⟩ rfl
     (Or.inr ⟨"", rfl, Or.inl rfl, Or.inl rfl⟩)⟩

/-- Claim C2: a record with mode 1 (remove on install) whose condition
is applicable and whose append succeeds stages exactly one
RemoveRegistry row (id, root, key, "-", component) copied verbatim, and
the pass continues with the remaining records. -/
theorem c2_removeOnInstall (env : Env) (id comp key cond : String) (root : Int)
    (rest : List RawRow)
    (happl : cond = "" ∨ env.evalCondition cond = CondResult.ctrue)
    (happ : env.appendOk (StagedRow.removeRegistry ⟨id, root, key, "-", comp⟩) = true) :
    (runRows env (⟨some id, some comp, some root, some key, some 1, some cond⟩ :: rest)).staged
      = StagedRow.removeRegistry ⟨id, root, key, "-", comp⟩ :: (runRows env rest).staged ∧
    (runRows env (⟨some id, some comp, some root, some key, some 1, some cond⟩ :: rest)).success
      = (runRows env rest).success := by
  have hstep :
      (processRow env ⟨some id, some comp, some root, some key, some 1, some cond⟩).outcome
        = RowOutcome.emit (StagedRow.removeRegistry ⟨id, root, key, "-", comp⟩) := by
    rcases happl with hce | hct
    · subst hce; simp [processRow, translateRow]
    · by_cases hce : cond = ""
      · subst hce; simp [processRow, translateRow]
      · simp [processRow, translateRow, hce, hct]
  constructor <;> simp [runRows, hstep, happ]

/-- Claim C2, witness at the spec's first scenario: rule
(R1, C1, root 2, key SOFTWARE, mode 1, empty condition). -/
theorem c2_removeOnInstall_witness :
    ("" = "" ∨ (envAllTrue []).evalCondition "" = CondResult.ctrue) ∧
    ((envAllTrue []).appendOk
        (StagedRow.removeRegistry ⟨"R1", 2, "SOFTWARE", "-", "C1"⟩) = true) ∧
    ((runRows (envAllTrue [])
        (⟨some "R1", some "C1", some 2, some "SOFTWARE", some 1, some ""⟩ :: [])).staged
        = StagedRow.removeRegistry ⟨"R1", 2, "SOFTWARE", "-", "C1"⟩
            :: (runRows (envAllTrue []) []).staged ∧
     (runRows (envAllTrue [])
        (⟨some "R1", some "C1", some 2, some "SOFTWARE", some 1, some ""⟩ :: [])).success
        = (runRows (envAllTrue []) []).success) :=
  ⟨Or.inl rfl, rfl,
   c2_removeOnInstall (envAllTrue []) "R1" "C1" "SOFTWARE" "" 2 [] (Or.inl rfl) rfl⟩

/-- Claim C3: a record with mode 2 (remove on uninstall) whose condition
is applicable and whose append succeeds stages exactly one Registry row
(id, root, key, "-", NULL value slot, component) copied verbatim, and
the pass continues with the remaining records. -/
theorem c3_removeOnUninstall (env : Env) (id comp key cond : String) (root : Int)
    (rest : List RawRow)
    (happl : cond = "" ∨ env.evalCondition cond = CondResult.ctrue)
    (happ : env.appendOk (StagedRow.registry ⟨id, root, key, "-", none, comp⟩) = true) :
    (runRows env (⟨some id, some comp, some root, some key, some 2, some cond⟩ :: rest)).staged
      = StagedRow.registry ⟨id, root, key, "-", none, comp⟩ :: (runRows env rest).staged ∧
    (runRows env (⟨some id, some comp, some root, some key, some 2, some cond⟩ :: rest)).success
      = (runRows env rest).success := by
  have hstep :
      (processRow env ⟨some id, some comp, some root, some key, some 2, some cond⟩).outcome
        = RowOutcome.emit (StagedRow.registry ⟨id, root, key, "-", none, comp⟩) := by
    rcases happl with hce | hct
    · subst hce; simp [processRow, translateRow]
    · by_cases hce : cond = ""
      · subst hce; simp [processRow, translateRow]
      · simp [processRow, translateRow, hce, hct]
  constructor <;> simp [runRows, hstep, happ]

/-- Claim C3, witness at the spec's second scenario: rule
(R2, C2, root 0, key SOFTWARE, mode 2) with a condition the context
satisfies. -/
theorem c3_removeOnUninstall_witness :
    ("VersionNT >= 600" = "" ∨
      (envAllTrue []).evalCondition "VersionNT >= 600" = CondResult.ctrue) ∧
    ((envAllTrue []).appendOk
        (StagedRow.registry ⟨"R2", 0, "SOFTWARE", "-", none, "C2"⟩) = true) ∧
    ((runRows (envAllTrue [])
        (⟨some "R2", some "C2", some 0, some "SOFTWARE", some 2,
          some "VersionNT >= 600"⟩ :: [])).staged
        = StagedRow.registry ⟨"R2", 0, "SOFTWARE", "-", none, "C2"⟩
            :: (runRows (envAllTrue []) []).staged ∧
     (runRows (envAllTrue [])
        (⟨some "R2", some "C2", some 0, some "SOFTWARE", some 2,
          some "VersionNT >= 600"⟩ :: [])).success
        = (runRows (envAllTrue []) []).success) :=
  ⟨Or.inr rfl, rfl,
   c3_removeOnUninstall (envAllTrue []) "R2" "C2" "SOFTWARE" "VersionNT >= 600" 0 []
     (Or.inr rfl) rfl⟩

/-- Claim C4: a record whose non-empty condition evaluates to False or
to Invalid is treated the same way in both cases: the record is skipped
with a log message, no row is staged for it under either mode, the pass
is not in error, and the remaining records are processed. -/
theorem c4_false_or_invalid_skip (env : Env) (id comp key cond : String)
    (root mode : Int) (rest : List RawRow) (hne : cond ≠ "")
    (hres : env.evalCondition cond = CondResult.cfalse ∨
            env.evalCondition cond = CondResult.cinvalid) :
    runRows env (⟨some id, some comp, some root, some key, some mode, some cond⟩ :: rest)
      = ⟨(runRows env rest).success, (runRows env rest).staged,
         LogEvent.conditionFalseOrInvalid id cond :: (runRows env rest).logs⟩ := by
  have hct : env.evalCondition cond ≠ CondResult.ctrue := by
    rcases hres with h | h <;> simp [h]
  simp [runRows, processRow, hne, hct]

/-- Claim C4, witness: a mode-1 record with condition COND evaluated
False is skipped with a log and the pass succeeds. -/
theorem c4_false_or_invalid_skip_witness :
    ("COND" ≠ "") ∧
    ((envAllFalse []).evalCondition "COND" = CondResult.cfalse ∨
     (envAllFalse []).evalCondition "COND" = CondResult.cinvalid) ∧
    runRows (envAllFalse [])
        (⟨some "R1", some "C1", some 2, some "K", some 1, some "COND"⟩ :: [])
      = ⟨(runRows (envAllFalse []) []).success, (runRows (envAllFalse []) []).staged,
         LogEvent.conditionFalseOrInvalid "R1" "COND"
           :: (runRows (envAllFalse []) []).logs⟩ :=
  ⟨by decide, Or.inl rfl,
   c4_false_or_invalid_skip (envAllFalse []) "R1" "C1" "K" "COND" 2 1 []
     (by decide) (Or.inl rfl)⟩

/-- Claim C5: a record whose mode is neither 1 nor 2 and whose condition
is applicable falls out of the switch: no row is staged, no error is
raised, no log message is emitted for the skip (only the condition-True
message when the condition was evaluated), and the remaining records are
processed. -/
theorem c5_unrecognized_mode (env : Env) (id comp key cond : String)
    (root mode : Int) (rest : List RawRow)
    (hm1 : mode ≠ 1) (hm2 : mode ≠ 2)
    (happl : cond = "" ∨ env.evalCondition cond = CondResult.ctrue) :
    processRow env ⟨some id, some comp, some root, some key, some mode, some cond⟩
      = ⟨RowOutcome.skip,
         if cond = "" then [] else [LogEvent.conditionTrue id cond]⟩ ∧
    runRows env (⟨some id, some comp, some root, some key, some mode, some cond⟩ :: rest)
      = ⟨(runRows env rest).success, (runRows env rest).staged,
         (if cond = "" then [] else [LogEvent.conditionTrue id cond])
           ++ (runRows env rest).logs⟩ := by
  have hstep :
      processRow env ⟨some id, some comp, some root, some key, some mode, some cond⟩
        = ⟨RowOutcome.skip,
           if cond = "" then [] else [LogEvent.conditionTrue id cond]⟩ := by
    rcases happl with hce | hct
    · subst hce; simp [processRow, translateRow, hm1, hm2]
    · by_cases hce : cond = ""
      · subst hce; simp [processRow, translateRow, hm1, hm2]
      · simp [processRow, translateRow, hce, hct, hm1, hm2]
  refine ⟨hstep, ?_⟩
  simp [runRows, hstep]

/-- Claim C5, witness: a record with mode 7 and an empty condition is
skipped with no log at all, and the pass succeeds. -/
theorem c5_unrecognized_mode_witness :
    ((7 : Int) ≠ 1) ∧ ((7 : Int) ≠ 2) ∧
    ("" = "" ∨ (envAllTrue []).evalCondition "" = CondResult.ctrue) ∧
    (processRow (envAllTrue [])
        ⟨some "R1", some "C1", some 2, some "K", some 7, some ""⟩
      = ⟨RowOutcome.skip,
         if "" = "" then [] else [LogEvent.conditionTrue "R1" ""]⟩ ∧
     runRows (envAllTrue [])
        (⟨some "R1", some "C1", some 2, some "K", some 7, some ""⟩ :: [])
      = ⟨(runRows (envAllTrue []) []).success, (runRows (envAllTrue []) []).staged,
         (if "" = "" then [] else [LogEvent.conditionTrue "R1" ""])
           ++ (runRows (envAllTrue []) []).logs⟩) :=
  ⟨by decide, by decide, Or.inl rfl,
   c5_unrecognized_mode (envAllTrue []) "R1" "C1" "K" "" 2 7 []
     (by decide) (by decide) (Or.inl rfl)⟩

/-- Claim C6: a record whose fetched condition is the empty string never
invokes the condition evaluator — the loop body's result is unchanged
under any replacement evaluator — and the record is treated as
applicable: control proceeds directly to the translation step. -/
theorem c6_empty_condition (env : Env) (f : String → CondResult) (r : RawRow)
    (id : String) (hid : r.id = some id) (hc : r.condition = some "") :
    processRow env r = translateRow r id [] ∧
    processRow ⟨env.tableExists, env.rows, f, env.appendOk⟩ r = processRow env r := by
  constructor <;> simp [processRow, hid, hc]

/-- Claim C6, witness: an empty-condition record is translated
identically under an evaluator that would reject everything. -/
theorem c6_empty_condition_witness :
    ((RawRow.mk (some "R1") (some "C1") (some 2) (some "K") (some 1) (some "")).id
        = some "R1") ∧
    ((RawRow.mk (some "R1") (some "C1") (some 2) (some "K") (some 1) (some "")).condition
        = some "") ∧
    (processRow (envAllTrue [])
        ⟨some "R1", some "C1", some 2, some "K", some 1, some ""⟩
      = translateRow ⟨some "R1", some "C1", some 2, some "K", some 1, some ""⟩ "R1" [] ∧
     processRow
        ⟨(envAllTrue []).tableExists, (envAllTrue []).rows,
         fun _ => CondResult.cinvalid, (envAllTrue []).appendOk⟩
        ⟨some "R1", some "C1", some 2, some "K", some 1, some ""⟩
      = processRow (envAllTrue [])
        ⟨some "R1", some "C1", some 2, some "K", some 1, some ""⟩) :=
  ⟨rfl, rfl,
   c6_empty_condition (envAllTrue []) (fun _ => CondResult.cinvalid)
     ⟨some "R1", some "C1", some 2, some "K", some 1, some ""⟩ "R1" rfl rfl⟩

/-- Claim C7: when the rule table does not exist the pass is a logged
no-op that succeeds with zero staged rows; the result is the same
constant for every cursor content, condition evaluator and append
oracle, so the staging tables are never touched. -/
theorem c7_table_missing (rows : List RawRow) (f : String → CondResult)
    (a : StagedRow → Bool) :
    wixRemoveRegistryKeyEx ⟨false, rows, f, a⟩
      = ⟨true, [], [LogEvent.tableMissing]⟩ := by
  simp [wixRemoveRegistryKeyEx]

/-- Claim C8: when the staging append for a record fails, the pass
aborts immediately with failure: the records after the failing one are
never processed (the result does not depend on them) and the rows staged
before the failure stay staged. -/
theorem c8_append_failure (env : Env) (pre rest : List RawRow) (r : RawRow)
    (s : StagedRow)
    (hpre : (runRows env pre).success = true)
    (hemit : (processRow env r).outcome = RowOutcome.emit s)
    (happ : env.appendOk s = false) :
    runRows env (pre ++ r :: rest)
      = ⟨false, (runRows env pre).staged,
         (runRows env pre).logs ++ (processRow env r).logs⟩ := by
  rw [runRows_append_of_success env pre (r :: rest) hpre]
  simp [runRows, hemit, happ]

/-- Claim C8, witness: with an always-failing append oracle, a pass over
a good record followed by another record aborts at the first append with
nothing staged. -/
theorem c8_append_failure_witness :
    ((runRows (envNoAppend []) []).success = true) ∧
    ((processRow (envNoAppend [])
        ⟨some "R1", some "C1", some 2, some "K", some 1, some ""⟩).outcome
      = RowOutcome.emit (StagedRow.removeRegistry ⟨"R1", 2, "K", "-", "C1"⟩)) ∧
    ((envNoAppend []).appendOk
        (StagedRow.removeRegistry ⟨"R1", 2, "K", "-", "C1"⟩) = false) ∧
    runRows (envNoAppend [])
        ([] ++ ⟨some "R1", some "C1", some 2, some "K", some 1, some ""⟩
          :: [⟨some "R2", some "C2", some 2, some "K2", some 1, some ""⟩])
      = ⟨false, (runRows (envNoAppend []) []).staged,
         (runRows (envNoAppend []) []).logs
           ++ (processRow (envNoAppend [])
                ⟨some "R1", some "C1", some 2, some "K", some 1, some ""⟩).logs⟩ :=
  ⟨rfl, rfl, rfl,
   c8_append_failure (envNoAppend []) []
     [⟨some "R2", some "C2", some 2, some "K2", some 1, some ""⟩]
     ⟨some "R1", some "C1", some 2, some "K", some 1, some ""⟩
     (StagedRow.removeRegistry ⟨"R1", 2, "K", "-", "C1"⟩) rfl rfl rfl⟩

/-- Claim C9, counterexample: a record whose Key and Component columns
are fetched as empty strings is processed normally — the pass succeeds
and stages a RemoveRegistry row with empty key and component — so the
loader does not guarantee non-empty key and component on the rows it
processes. -/
theorem c9_counterexample :
    wixRemoveRegistryKeyEx
        ⟨true, [⟨some "R1", some "", some 2, some "", some 1, some ""⟩],
         fun _ => CondResult.ctrue, fun _ => true⟩
      = ⟨true, [StagedRow.removeRegistry ⟨"R1", 2, "", "-", ""⟩],
         [LogEvent.addingRemoveRegistry "R1" 2 "" ""]⟩ := rfl

/-- Claim C9, amended: for every record the translator turns into a
staged row, all six column fetches succeeded (the fields are present,
though the string fields may be empty); a record with a failed required
fetch yields a fatal outcome, never a staged row.  The code performs no
non-emptiness check on key or component. -/
theorem c9_emitted_rows_fully_fetched (env : Env) (r : RawRow) (s : StagedRow)
    (h : (processRow env r).outcome = RowOutcome.emit s) :
    r.id ≠ none ∧ r.condition ≠ none ∧ r.component ≠ none ∧ r.root ≠ none ∧
    r.key ≠ none ∧ r.mode ≠ none := by
  cases hid : r.id with
  | none => simp [processRow, hid] at h
  | some id =>
    cases hc : r.condition with
    | none => simp [processRow, hid, hc] at h
    | some c =>
      have htr : ∃ ls, (translateRow r id ls).outcome = RowOutcome.emit s := by
        by_cases hce : c = ""
        · exact ⟨[], by simpa [processRow, hid, hc, hce] using h⟩
        · by_cases hct : env.evalCondition c = CondResult.ctrue
          · exact ⟨[LogEvent.conditionTrue id c],
              by simpa [processRow, hid, hc, hce, hct] using h⟩
          · simp [processRow, hid, hc, hce, hct] at h
      obtain ⟨ls, htr⟩ := htr
      have hf := translateRow_emit_fetched r id ls s htr
      exact ⟨by simp [hid], by simp [hc], hf.1, hf.2.1, hf.2.2.1, hf.2.2.2⟩

/-- Claim C9, witness of the amended theorem: a fully fetched mode-1
record emits a staged row, and all its fields are present. -/
theorem c9_emitted_rows_fully_fetched_witness :
    ((processRow (envAllTrue [])
        ⟨some "R1", some "C1", some 2, some "K", some 1, some ""⟩).outcome
      = RowOutcome.emit (StagedRow.removeRegistry ⟨"R1", 2, "K", "-", "C1"⟩)) ∧
    ((RawRow.mk (some "R1") (some "C1") (some 2) (some "K") (some 1) (some "")).id
        ≠ none ∧
     (RawRow.mk (some "R1") (some "C1") (some 2) (some "K") (some 1) (some "")).condition
        ≠ none ∧
     (RawRow.mk (some "R1") (some "C1") (some 2) (some "K") (some 1) (some "")).component
        ≠ none ∧
     (RawRow.mk (some "R1") (some "C1") (some 2) (some "K") (some 1) (some "")).root
        ≠ none ∧
     (RawRow.mk (some "R1") (some "C1") (some 2) (some "K") (some 1) (some "")).key
        ≠ none ∧
     (RawRow.mk (some "R1") (some "C1") (some 2) (some "K") (some 1) (some "")).mode
        ≠ none) :=
  ⟨rfl,
   c9_emitted_rows_fully_fetched (envAllTrue [])
     ⟨some "R1", some "C1", some 2, some "K", some 1, some ""⟩
     (StagedRow.removeRegistry ⟨"R1", 2, "K", "-", "C1"⟩) rfl⟩

/-- Claim C10: for a record whose non-empty condition does not evaluate
True, the loop body reads only the Id and Condition columns: its result
is the same skip for every value of the Component, Root, Key and
InstallMode fields — including failed fetches — so a fetch error in
those columns of a skipped record cannot abort the pass. -/
theorem c10_skip_reads_only_id_and_condition (env : Env) (id c : String)
    (comp : Option String) (root : Option Int) (key : Option String)
    (mode : Option Int) (rest : List RawRow) (hne : c ≠ "")
    (hct : env.evalCondition c ≠ CondResult.ctrue) :
    processRow env ⟨some id, comp, root, key, mode, some c⟩
      = ⟨RowOutcome.skip, [LogEvent.conditionFalseOrInvalid id c]⟩ ∧
    (runRows env (⟨some id, comp, root, key, mode, some c⟩ :: rest)).success
      = (runRows env rest).success := by
  constructor
  · simp [processRow, hne, hct]
  · simp [runRows, processRow, hne, hct]

/-- Claim C10, witness: a skipped record all four of whose remaining
column fetches would fail still only skips, and the pass succeeds. -/
theorem c10_skip_reads_only_id_and_condition_witness :
    ("COND" ≠ "") ∧
    ((envAllFalse []).evalCondition "COND" ≠ CondResult.ctrue) ∧
    (processRow (envAllFalse []) ⟨some "R1", none, none, none, none, some "COND"⟩
      = ⟨RowOutcome.skip, [LogEvent.conditionFalseOrInvalid "R1" "COND"]⟩ ∧
     (runRows (envAllFalse [])
        (⟨some "R1", none, none, none, none, some "COND"⟩ :: [])).success
      = (runRows (envAllFalse []) []).success) :=
  ⟨by decide, by decide,
   c10_skip_reads_only_id_and_condition (envAllFalse []) "R1" "COND"
     none none none none [] (by decide) (by decide)⟩

end RemoveRegistryKeyEx
